import Mathlib

/-!
Verification model of src/db/sqlitedict.py: a dict-like, thread-safe wrapper
around sqlite3 in which a single worker thread (class SqliteMultiThread) owns
the database connection and processes commands from a FIFO queue, while caller
threads enqueue commands and block on per-call result queues.

The embedding is shallow:
  * Python runtime values that can appear as keys are modelled by `PyValue`.
    A set/frozenset object is modelled together with its iteration order (the
    order `list(s)` and `json.dumps` observe) and a dict object with its
    insertion order (which Python guarantees is its iteration order); Python
    `==` on sets and dicts ignores those orders.
  * The sqlite table is an association list of rows (key, value-blob) in rowid
    order; REPLACE INTO deletes a conflicting row and appends the new one.
  * The worker loop `SqliteMultiThread.run` is a fold over the FIFO list of
    queued entries; the result queue of an entry is modelled as the list of
    messages the worker puts into it.
  * Blocking calls (select, select_one, commit(blocking=True)) are modelled
    synchronously: the caller's first message arrives only after the worker
    has processed every entry queued before (and including) the caller's own
    entry, which is exactly the FIFO single-consumer protocol of the code.
  * The value codec (encode/decode) is pluggable in the source (constructor
    parameters defaulting to pickle), so the model is parametrised by the
    functions `encode : V → B` and `decode : B → V` stored in the facade.
-/

namespace Sqlitedict

/-! ## Python key values -/

mutual

/-- Python values usable as SqliteDict keys.  Composite objects carry the
element order a Python program observes when iterating them. -/
inductive PyValue where
  | pyNone
  | pyBool (b : Bool)
  | pyInt (n : Int)
  | pyStr (s : String)
  | pyTuple (items : PyList)
  | pySet (iterOrder : PyList)
  | pyFrozenset (iterOrder : PyList)
  | pyDict (insOrder : PyPairs)

/-- A sequence of Python values (the spine of a tuple or the iteration order
of a set). -/
inductive PyList where
  | nil
  | cons (head : PyValue) (tail : PyList)

/-- The key-value pairs of a Python dict, in insertion order.  A dict object
never holds two pairs with equal keys. -/
inductive PyPairs where
  | nil
  | cons (key : PyValue) (value : PyValue) (tail : PyPairs)

end

deriving instance DecidableEq for PyValue, PyList, PyPairs

/-- True exactly for the key shapes that `SqliteDict.__serialize_key` rewrites
(tuple, frozenset, set, dict); every other value is passed through. -/
def isComposite : PyValue → Bool
  | .pyTuple _ => true
  | .pySet _ => true
  | .pyFrozenset _ => true
  | .pyDict _ => true
  | _ => false

/-! ## The JSON encoder used by the key normalizer

`SqliteDict.__serialize_key` calls `json.dumps` (Python's json encoder with
default settings: separators `", "` and `": "`, `sort_keys=False`, strings
escaped, non-string scalar dict keys coerced to strings, and a TypeError for
values that are not JSON serializable, such as sets). -/

/-- Escaping of one character inside a JSON string literal (the two characters
that can occur in the keys this development manipulates; control characters
never do). -/
def jsonEscapeChar (c : Char) : List Char :=
  if c = '\x22' then ['\\', '\x22'] else if c = '\\' then ['\\', '\\'] else [c]

/-- Body of a JSON string literal. -/
def jsonEscape (s : String) : String :=
  String.mk (s.data.foldr (fun c acc => jsonEscapeChar c ++ acc) [])

mutual

/-- Python `json.dumps` with its default settings, returning `none` where the
Python encoder raises TypeError (sets and frozensets are not serializable). -/
def jsonDumps : PyValue → Option String
  | .pyNone => some "null"
  | .pyBool b => some (if b then "true" else "false")
  | .pyInt n => some (toString n)
  | .pyStr s => some ("\x22" ++ jsonEscape s ++ "\x22")
  | .pyTuple l => (jsonDumpsElems l).map (fun ss => "[" ++ String.intercalate ", " ss ++ "]")
  | .pySet _ => none
  | .pyFrozenset _ => none
  | .pyDict ps => (jsonDumpsMembers ps).map (fun ss => "\x7b" ++ String.intercalate ", " ss ++ "\x7d")

/-- Elements of a JSON array, in order. -/
def jsonDumpsElems : PyList → Option (List String)
  | .nil => some []
  | .cons v vs => do pure ((← jsonDumps v) :: (← jsonDumpsElems vs))

/-- Members of a JSON object, in the dict's insertion order. -/
def jsonDumpsMembers : PyPairs → Option (List String)
  | .nil => some []
  | .cons k v ps => do
      let ks ← jsonKeyStr k
      let vs ← jsonDumps v
      pure ((ks ++ ": " ++ vs) :: (← jsonDumpsMembers ps))

/-- JSON object keys: json.dumps stringifies scalar dict keys and rejects
composite ones (TypeError). -/
def jsonKeyStr : PyValue → Option String
  | .pyStr s => some ("\x22" ++ jsonEscape s ++ "\x22")
  | .pyInt n => some ("\x22" ++ toString n ++ "\x22")
  | .pyBool b => some ("\x22" ++ (if b then "true" else "false") ++ "\x22")
  | .pyNone => some "\x22null\x22"
  | _ => none

end

/-! ## Errors raised by the facade -/

/-- The Python exceptions the modelled code can raise towards a caller. -/
inductive PyErr where
  | keyError (key : PyValue)      -- KeyError (absent key)
  | runtimeError (msg : String)   -- RuntimeError (read-only store refusals)
  | typeError (msg : String)      -- TypeError (json.dumps on a bad key)
  | attributeError (msg : String) -- AttributeError (operation with self.conn = None)
  | sqliteError (msg : String)    -- a deferred sqlite3.Error re-raised by check_raise_error
deriving DecidableEq

/-! ## The key normalizer -/

/-- Model of `SqliteDict.__serialize_key` (src/db/sqlitedict.py lines 159-169):
tuples, frozensets and sets become `json.dumps(list(_key))`, dicts become
`json.dumps(_key)`, and every other value is returned unchanged.  The error
case is the TypeError `json.dumps` raises on unserializable contents. -/
def serializeKey : PyValue → Except PyErr PyValue
  | .pyTuple l =>
      match jsonDumps (.pyTuple l) with
      | some s => .ok (.pyStr s)
      | none => .error (.typeError "Object is not JSON serializable")
  | .pyFrozenset l =>
      match jsonDumps (.pyTuple l) with
      | some s => .ok (.pyStr s)
      | none => .error (.typeError "Object is not JSON serializable")
  | .pySet l =>
      match jsonDumps (.pyTuple l) with
      | some s => .ok (.pyStr s)
      | none => .error (.typeError "Object is not JSON serializable")
  | .pyDict ps =>
      match jsonDumps (.pyDict ps) with
      | some s => .ok (.pyStr s)
      | none => .error (.typeError "keys must be str, int, float, bool or None")
  | k => .ok k

/-! ## Python equality on scalar-entry dicts (for comparing keys)

Python `==` on dict objects ignores insertion order: two dicts are equal iff
they define the same key-to-value mapping.  For dicts whose keys and values
are scalars (str, int, bool, None), Python `==` on the entries coincides with
structural equality, and since a dict object never contains two pairs with the
same key, mapping equality is mutual containment of the pair lists. -/

/-- Membership of one key-value pair in a dict's pair list. -/
def dictHasPair (k v : PyValue) : PyPairs → Bool
  | .nil => false
  | .cons k2 v2 ps => (k = k2 && v = v2) || dictHasPair k v ps

/-- Containment of all pairs of one dict in another. -/
def dictSub : PyPairs → PyPairs → Bool
  | .nil, _ => true
  | .cons k v ps, d => dictHasPair k v d && dictSub ps d

/-- Python `==` on two dict objects with scalar keys and values: the same
mapping, irrespective of insertion order. -/
def pyDictEqv (a b : PyPairs) : Bool := dictSub a b && dictSub b a

/-! ## The sqlite engine (one table, schema key TEXT PRIMARY KEY, value BLOB)

Blobs are an arbitrary type `B`, keys are `PyValue`s (the scalar produced by
the key normalizer, or a raw composite when the code skips normalization).
The table is kept in rowid order. -/

/-- One sqlite table: rows of (key, value) in rowid order. -/
abbrev Table (B : Type) := List (PyValue × B)

variable {B V : Type}

/-- Point lookup: the value of the row whose key equals the argument. -/
def tlookup (t : Table B) (k : PyValue) : Option B :=
  (t.find? (fun r => r.1 == k)).map Prod.snd

/-- REPLACE INTO: delete any row with a conflicting key, then append the new
row (its rowid is fresh, so it sits at the end). -/
def replaceRow (t : Table B) (k : PyValue) (b : B) : Table B :=
  t.filter (fun r => !(r.1 == k)) ++ [(k, b)]

/-- DELETE FROM the table WHERE key matches. -/
def deleteRow (t : Table B) (k : PyValue) : Table B :=
  t.filter (fun r => !(r.1 == k))

/-- One column of a result row. -/
inductive Cell (B : Type) where
  | intCell (n : Int)
  | blobCell (b : B)

/-- One result row of a SELECT. -/
abbrev Row (B : Type) := List (Cell B)

/-- The SQL statements the facade submits (each template with its bound
parameters), plus `failingStmt`, standing for any statement the engine
rejects with an sqlite3.Error (malformed SQL, constraint violation, ...). -/
inductive Stmt (B : Type) where
  | addItem (key : PyValue) (value : B) -- REPLACE INTO t (key, value) VALUES (?, ?)
  | delItem (key : PyValue)             -- DELETE FROM t WHERE key = ?
  | getItem (key : PyValue)             -- SELECT value FROM t WHERE key = ?
  | hasItem (key : PyValue)             -- SELECT 1 FROM t WHERE key = ?
  | getLen                              -- SELECT COUNT(*) FROM t
  | clearAll                            -- DELETE FROM t
  | failingStmt (msg : String)          -- any statement failing with sqlite3.Error(msg)

/-- Whether executing the statement can change the row the given key maps to. -/
def Stmt.writesKey : Stmt B → PyValue → Bool
  | .addItem k _, key => k == key
  | .delItem k, key => k == key
  | .clearAll, _ => true
  | _, _ => false

/-- Key values sqlite3 can bind directly as statement parameters (str, int,
bool, None; floats and bytes never occur as keys in this development).
Binding any other Python object — a tuple, set, frozenset or dict — makes
cursor.execute raise sqlite3.InterfaceError, which is a subclass of
sqlite3.Error and is therefore caught and deferred by the worker loop.  The
value parameter of the REPLACE never needs this check: it is always the
sqlite3.Binary blob produced by encode. -/
def bindable : PyValue → Bool
  | .pyNone => true
  | .pyBool _ => true
  | .pyInt _ => true
  | .pyStr _ => true
  | _ => false

/-- Message of the sqlite3.InterfaceError raised when a bound parameter has an
unsupported type. -/
def bindErrorMsg : String := "Error binding parameter 0 - probably unsupported type."

/-- Engine semantics of one statement on one table: the updated table and the
result rows of the cursor, or the message of the sqlite3.Error.  Statements
that bind a key parameter fail at binding time (sqlite3.InterfaceError) when
the key is not a bindable scalar, and then change nothing. -/
def execStmt (t : Table B) : Stmt B → Except String (Table B × List (Row B))
  | .addItem k v =>
      if bindable k then .ok (replaceRow t k v, []) else .error bindErrorMsg
  | .delItem k =>
      if bindable k then .ok (deleteRow t k, []) else .error bindErrorMsg
  | .getItem k =>
      if bindable k then
        .ok (t, match tlookup t k with
                | some b => [[Cell.blobCell b]]
                | none => [])
      else .error bindErrorMsg
  | .hasItem k =>
      if bindable k then
        .ok (t, match tlookup t k with
                | some _ => [[Cell.intCell 1]]
                | none => [])
      else .error bindErrorMsg
  | .getLen => .ok (t, [[Cell.intCell t.length]])
  | .clearAll => .ok ([], [])
  | .failingStmt msg => .error msg

/-! ## The worker thread (class SqliteMultiThread, method run)

A queue entry in the source is a tuple (req, arg, res, outer_stack): `req` is
an SQL string or one of the control markers ResourcesOfQueue.COMMIT / CLOSE,
`arg` the bound parameters, `res` an optional result queue and `outer_stack`
a caller-side stack snapshot used only for logging.  Here `req` and `arg` are
folded into `Req`, the result queue is tracked by the flag `hasRes`, and the
stack snapshot is omitted (it never influences behaviour). -/

/-- A request on the worker queue. -/
inductive Req (B : Type) where
  | sqlReq (s : Stmt B)
  | commitReq -- ResourcesOfQueue.COMMIT
  | closeReq  -- ResourcesOfQueue.CLOSE

/-- Whether the request is the close marker (which breaks the worker loop). -/
def Req.isClose : Req B → Bool
  | .closeReq => true
  | _ => false

/-- Whether processing the request can change the row the key maps to. -/
def Req.writesKey : Req B → PyValue → Bool
  | .sqlReq s, key => s.writesKey key
  | _, _ => false

/-- One entry of the worker's FIFO request queue. -/
structure Entry (B : Type) where
  req : Req B
  hasRes : Bool

/-- A message the worker puts into a caller's result queue. -/
inductive Msg (B : Type) where
  | row (r : Row B)
  | noMore -- the ResourcesOfQueue.NO_MORE end-of-stream sentinel

/-- The state owned by the worker thread: the connection's current table
contents, the table contents already committed to disk, and the deferred
failure slot `self.exception`. -/
structure WState (B : Type) where
  table : Table B
  durable : Table B
  exc : Option String

/-- Result of the worker processing (a prefix of) its queue. -/
structure RunResult (B : Type) where
  final : WState B
  /-- Per processed entry, the messages put into its result queue (`none` when
  the entry carried no result queue). -/
  outs : List (Option (List (Msg B)))
  /-- The requests processed, in processing order. -/
  applied : List (Req B)

/-- One non-close iteration of the worker loop of `SqliteMultiThread.run`
(src/db/sqlitedict.py lines 419-464): a COMMIT marker commits the connection
and acknowledges on the result queue if one was supplied; an SQL request is
executed — on sqlite3.Error the failure is recorded in `self.exception` (the
cursor then yields no rows), and in every case the result queue, when
supplied, receives the pending rows followed by the NO_MORE sentinel; with
autocommit the connection is committed after the statement.  The close marker
is handled by `runWorker` before this function is reached. -/
def runStep (auto : Bool) (w : WState B) (e : Entry B) : WState B × Option (List (Msg B)) :=
  match e.req with
  | .closeReq => (w, none)
  | .commitReq =>
      ({ w with durable := w.table }, if e.hasRes then some [Msg.noMore] else none)
  | .sqlReq s =>
      match execStmt w.table s with
      | .ok (t2, rows) =>
          ({ w with table := t2, durable := if auto then t2 else w.durable },
           if e.hasRes then some (rows.map Msg.row ++ [Msg.noMore]) else none)
      | .error msg =>
          ({ w with exc := some msg, durable := if auto then w.table else w.durable },
           if e.hasRes then some [Msg.noMore] else none)

/-- The worker loop of `SqliteMultiThread.run` over the FIFO queue: entries are
popped and processed strictly in arrival order; a close marker breaks the loop
(the connection is closed and the close entry's result queue receives NO_MORE;
entries queued after it are never processed). -/
def runWorker (auto : Bool) (w : WState B) : List (Entry B) → RunResult B
  | [] => ⟨w, [], []⟩
  | e :: rest =>
      if e.req.isClose then
        ⟨w, [if e.hasRes then some [Msg.noMore] else none], [e.req]⟩
      else
        let (w2, out) := runStep auto w e
        let r := runWorker auto w2 rest
        ⟨r.final, out :: r.outs, e.req :: r.applied⟩

/-! ## The caller-side protocol (methods of SqliteMultiThread) -/

/-- Model of `SqliteMultiThread.check_raise_error` (lines 470-498): if the
deferred failure slot is filled, clear it and raise its content (returned here
as the second component); otherwise do nothing. -/
def check_raise_error (w : WState B) : WState B × Option String :=
  match w.exc with
  | some msg => ({ w with exc := none }, some msg)
  | none => (w, none)

/-- The state of one SqliteMultiThread connection as seen by callers: the
worker-owned state and the FIFO queue of entries not yet processed. -/
structure MTState (B : Type) where
  worker : WState B
  reqs : List (Entry B)

/-- Model of `SqliteMultiThread.execute` (lines 500-511): first
`check_raise_error` (a raised deferred failure aborts the call before
anything is queued), then put the entry on the request queue and return
immediately. -/
def mtExecute (m : MTState B) (e : Entry B) : MTState B × Option String :=
  match check_raise_error m.worker with
  | (w2, some msg) => ({ m with worker := w2 }, some msg)
  | (w2, none) => (⟨w2, m.reqs ++ [e]⟩, none)

/-- The caller's drain loop inside `SqliteMultiThread.select` (lines 528-533):
repeatedly take a message from the private result queue, call
`check_raise_error` after each take, stop at the NO_MORE sentinel.  By the
time the caller drains, the worker has already filled the queue, so the
deferred-failure slot does not change between takes. -/
def drainLoop (w : WState B) : List (Msg B) → WState B × Except String (List (Row B))
  | [] => (w, .ok []) -- unreachable: every filled result queue ends with NO_MORE
  | msg :: rest =>
      match check_raise_error w with
      | (w2, some e) => (w2, .error e)
      | (w2, none) =>
          match msg with
          | .noMore => (w2, .ok [])
          | .row r =>
              match drainLoop w2 rest with
              | (w3, .ok rows) => (w3, .ok (r :: rows))
              | (w3, .error e) => (w3, .error e)

/-- A blocking request: `execute` the entry with a dedicated result queue, then
block draining that queue.  The first message can only arrive after the worker
has processed every entry queued before this one and this entry itself (FIFO
order), so at that point the whole backlog has run. -/
def mtBlocking (auto : Bool) (m : MTState B) (rq : Req B) : MTState B × Except String (List (Row B)) :=
  match check_raise_error m.worker with
  | (w2, some e) => ({ m with worker := w2 }, .error e)
  | (w2, none) =>
      let r := runWorker auto w2 (m.reqs ++ [⟨rq, true⟩])
      let msgs := (r.outs.getLast?.getD none).getD []
      let (w3, rows) := drainLoop r.final msgs
      (⟨w3, []⟩, rows)

/-- Model of `SqliteMultiThread.select` (lines 518-533). -/
def mtSelect (auto : Bool) (m : MTState B) (s : Stmt B) : MTState B × Except String (List (Row B)) :=
  mtBlocking auto m (.sqlReq s)

/-- Model of `SqliteMultiThread.select_one` (lines 535-540): the first row of
the SELECT, or none if there is no row. -/
def mtSelectOne (auto : Bool) (m : MTState B) (s : Stmt B) :
    MTState B × Except String (Option (Row B)) :=
  let (m2, r) := mtSelect auto m s
  (m2, r.map List.head?)

/-- Model of `SqliteMultiThread.commit` (lines 542-551): blocking waits on a
select of the COMMIT marker (so it returns only after the worker has executed
the commit, and the drain raises any deferred failure); non-blocking merely
queues the COMMIT marker with no result queue. -/
def mtCommit (auto : Bool) (m : MTState B) (blocking : Bool) : MTState B × Except String Unit :=
  if blocking then
    let (m2, r) := mtBlocking auto m .commitReq
    (m2, r.map (fun _ => ()))
  else
    match mtExecute m ⟨.commitReq, false⟩ with
    | (m2, some e) => (m2, .error e)
    | (m2, none) => (m2, .ok ())

/-- Model of `SqliteMultiThread.close` (lines 553-566): forced close pushes the
CLOSE marker straight onto the request queue and returns; graceful close
blocks on a select of the CLOSE marker and joins the thread. -/
def mtClose (auto : Bool) (m : MTState B) (force : Bool) : MTState B × Except String Unit :=
  if force then
    ({ m with reqs := m.reqs ++ [⟨.closeReq, true⟩] }, .ok ())
  else
    let (m2, r) := mtBlocking auto m .closeReq
    (m2, r.map (fun _ => ()))

/-! ## The facade (class SqliteDict)

The facade keeps the open flag, the autocommit setting, the pluggable codec
(self.encode / self.decode) and the connection handle self.conn, which
`close` sets to None.  Each operation returns the updated facade and either a
result or the Python exception it raises. -/

/-- State of one SqliteDict object. -/
structure SqliteDict (B V : Type) where
  flag : String
  autocommit : Bool
  encode : V → B
  decode : B → V
  conn : Option (MTState B)

/-- First (and only) column of a one-column blob row. -/
def rowBlob : Row B → Option B
  | [Cell.blobCell b] => some b
  | _ => none

/-- Model of `SqliteDict.commit` (lines 307-315): when the connection handle
is None (after close) the call silently does nothing; otherwise it delegates
to the connection's commit. -/
def SqliteDict.commit (d : SqliteDict B V) (blocking : Bool) :
    SqliteDict B V × Except PyErr Unit :=
  match d.conn with
  | none => (d, .ok ())
  | some m =>
      let (m2, r) := mtCommit d.autocommit m blocking
      ({ d with conn := some m2 },
       match r with
       | .ok _ => .ok ()
       | .error msg => .error (.sqliteError msg))

/-- Model of `SqliteDict.__getitem__` (lines 234-240): serialize the key,
point-select, raise KeyError on no row, else decode the first column. -/
def SqliteDict.getitem (d : SqliteDict B V) (key : PyValue) :
    SqliteDict B V × Except PyErr V :=
  match serializeKey key with
  | .error e => (d, .error e)
  | .ok k =>
      match d.conn with
      | none => (d, .error (.attributeError "NoneType object has no attribute select_one"))
      | some m =>
          let (m2, r) := mtSelectOne d.autocommit m (.getItem k)
          let d2 : SqliteDict B V := { d with conn := some m2 }
          match r with
          | .error msg => (d2, .error (.sqliteError msg))
          | .ok none => (d2, .error (.keyError k))
          | .ok (some row) =>
              match rowBlob row with
              | some b => (d2, .ok (d.decode b))
              | none => (d2, .error (.typeError "a bytes-like object is required"))

/-- Model of the dict method get, which SqliteDict inherits from
collections.UserDict (collections.abc.Mapping.get): return self[key], except
that a KeyError is caught and the default is returned instead; every other
exception propagates.  This is the lookup the repository layer uses
(src/repositories/repository_books.py line 14, repository_users.py line 17). -/
def SqliteDict.get (d : SqliteDict B V) (key : PyValue) (default : Option V) :
    SqliteDict B V × Except PyErr (Option V) :=
  match SqliteDict.getitem d key with
  | (d2, .error (.keyError _)) => (d2, .ok default)
  | (d2, .error e) => (d2, .error e)
  | (d2, .ok v) => (d2, .ok (some v))

/-- Model of `SqliteDict.__contains__` (lines 229-232): serialize the key and
point-select the constant 1. -/
def SqliteDict.hasKey (d : SqliteDict B V) (key : PyValue) :
    SqliteDict B V × Except PyErr Bool :=
  match serializeKey key with
  | .error e => (d, .error e)
  | .ok k =>
      match d.conn with
      | none => (d, .error (.attributeError "NoneType object has no attribute select_one"))
      | some m =>
          let (m2, r) := mtSelectOne d.autocommit m (.hasItem k)
          let d2 : SqliteDict B V := { d with conn := some m2 }
          match r with
          | .error msg => (d2, .error (.sqliteError msg))
          | .ok opt => (d2, .ok opt.isSome)

/-- Model of `SqliteDict.__setitem__` (lines 242-250): serialize the key,
refuse on a read-only store, enqueue the REPLACE with the encoded value, and
under autocommit call self.commit() (whose default is blocking=True). -/
def SqliteDict.setitem (d : SqliteDict B V) (key : PyValue) (v : V) :
    SqliteDict B V × Except PyErr Unit :=
  match serializeKey key with
  | .error e => (d, .error e)
  | .ok k =>
      if d.flag = "r" then
        (d, .error (.runtimeError "Refusing to write to read-only SqliteDict"))
      else
        match d.conn with
        | none => (d, .error (.attributeError "NoneType object has no attribute execute"))
        | some m =>
            match mtExecute m ⟨.sqlReq (.addItem k (d.encode v)), false⟩ with
            | (m2, some msg) => ({ d with conn := some m2 }, .error (.sqliteError msg))
            | (m2, none) =>
                if d.autocommit then SqliteDict.commit { d with conn := some m2 } true
                else ({ d with conn := some m2 }, .ok ())

/-- Model of `SqliteDict.__delitem__` (lines 252-262): serialize the key,
refuse on a read-only store, then a containment check (a separate blocking
round trip, which serializes the already-serialized key a second time) that
raises KeyError if the key is absent, then enqueue the DELETE, and under
autocommit call self.commit(). -/
def SqliteDict.delitem (d : SqliteDict B V) (key : PyValue) :
    SqliteDict B V × Except PyErr Unit :=
  match serializeKey key with
  | .error e => (d, .error e)
  | .ok k =>
      if d.flag = "r" then
        (d, .error (.runtimeError "Refusing to delete from read-only SqliteDict"))
      else
        match SqliteDict.hasKey d k with
        | (d2, .error e) => (d2, .error e)
        | (d2, .ok false) => (d2, .error (.keyError k))
        | (d2, .ok true) =>
            match d2.conn with
            | none => (d2, .error (.attributeError "NoneType object has no attribute execute"))
            | some m =>
                match mtExecute m ⟨.sqlReq (.delItem k), false⟩ with
                | (m2, some msg) => ({ d2 with conn := some m2 }, .error (.sqliteError msg))
                | (m2, none) =>
                    if d2.autocommit then SqliteDict.commit { d2 with conn := some m2 } true
                    else ({ d2 with conn := some m2 }, .ok ())

/-- Model of `SqliteMultiThread.executemany` (lines 513-516): one non-blocking
execute per item, then a final check_raise_error. -/
def mtExecuteMany (m : MTState B) : List (PyValue × B) → MTState B × Option String
  | [] =>
      match check_raise_error m.worker with
      | (w2, r) => ({ m with worker := w2 }, r)
  | (k, b) :: rest =>
      match mtExecute m ⟨.sqlReq (.addItem k b), false⟩ with
      | (m2, some e) => (m2, some e)
      | (m2, none) => mtExecuteMany m2 rest

/-- Model of `SqliteDict.update` (lines 264-280) restricted to a list of
pairs and no keyword arguments: refuse on a read-only store, encode the
values — note that, unlike set/get/contains/delete, the keys are NOT passed
through `__serialize_key` — and executemany the REPLACE statements; under
autocommit call self.commit(). -/
def SqliteDict.update (d : SqliteDict B V) (items : List (PyValue × V)) :
    SqliteDict B V × Except PyErr Unit :=
  if d.flag = "r" then
    (d, .error (.runtimeError "Refusing to update read-only SqliteDict"))
  else
    match d.conn with
    | none => (d, .error (.attributeError "NoneType object has no attribute executemany"))
    | some m =>
        match mtExecuteMany m (items.map (fun p => (p.1, d.encode p.2))) with
        | (m2, some msg) => ({ d with conn := some m2 }, .error (.sqliteError msg))
        | (m2, none) =>
            if d.autocommit then SqliteDict.commit { d with conn := some m2 } true
            else ({ d with conn := some m2 }, .ok ())

/-- Model of `SqliteDict.__enter__` (lines 174-177): if the connection handle
is absent or None, install a fresh connection (`self._new_conn()`), whose
worker reads the durable contents of the backing file. -/
def SqliteDict.enter (d : SqliteDict B V) (fileTable : Table B) : SqliteDict B V :=
  match d.conn with
  | some _ => d
  | none => { d with conn := some ⟨⟨fileTable, fileTable, none⟩, []⟩ }

/-- Model of `SqliteDict.close` (lines 319-330): nothing happens when the
connection is already None; otherwise, under autocommit (and no force) a
blocking commit first, then the connection is closed and the handle cleared.
An exception surfacing from the blocking commit propagates before the handle
is cleared. -/
def SqliteDict.close (d : SqliteDict B V) (force : Bool) :
    SqliteDict B V × Except PyErr Unit :=
  match d.conn with
  | none => (d, .ok ())
  | some m =>
      let (m1, r1) :=
        if d.autocommit && !force then mtCommit d.autocommit m true else (m, .ok ())
      match r1 with
      | .error msg => ({ d with conn := some m1 }, .error (.sqliteError msg))
      | .ok _ =>
          let (m2, r2) := mtClose d.autocommit m1 force
          match r2 with
          | .error msg => ({ d with conn := some m2 }, .error (.sqliteError msg))
          | .ok _ => ({ d with conn := none }, .ok ())

/-! ## Helper lemmas about the engine -/

theorem tlookup_nil (k : PyValue) : tlookup ([] : Table B) k = none := rfl

theorem tlookup_cons (r : PyValue × B) (t : Table B) (k : PyValue) :
    tlookup (r :: t) k = if r.1 = k then some r.2 else tlookup t k := by
  by_cases h : r.1 = k
  · simp [tlookup, List.find?, h]
  · have hb : (r.1 == k) = false := beq_eq_false_iff_ne.mpr h
    simp [tlookup, List.find?, hb, h]

theorem tlookup_append (t1 t2 : Table B) (k : PyValue) :
    tlookup (t1 ++ t2) k = (tlookup t1 k).or (tlookup t2 k) := by
  induction t1 with
  | nil => simp [tlookup]
  | cons r t ih =>
      by_cases h : r.1 = k
      · simp [tlookup_cons, h]
      · simp [tlookup_cons, h, ih]

theorem tlookup_filter_ne (t : Table B) (k2 k : PyValue) (h : k2 ≠ k) :
    tlookup (t.filter (fun r => !(r.1 == k2))) k = tlookup t k := by
  induction t with
  | nil => rfl
  | cons r t ih =>
      rw [List.filter_cons]
      by_cases hr : r.1 = k2
      · have hb : (!(r.1 == k2)) = false := by
          rw [beq_iff_eq.mpr hr]; rfl
        have hk : r.1 ≠ k := by rw [hr]; exact h
        rw [hb, if_neg (by simp), ih, tlookup_cons, if_neg hk]
      · have hb : (!(r.1 == k2)) = true := by
          rw [beq_eq_false_iff_ne.mpr hr]; rfl
        rw [hb, if_pos rfl, tlookup_cons, tlookup_cons, ih]

theorem tlookup_filter_self (t : Table B) (k : PyValue) :
    tlookup (t.filter (fun r => !(r.1 == k))) k = none := by
  induction t with
  | nil => rfl
  | cons r t ih =>
      rw [List.filter_cons]
      by_cases hr : r.1 = k
      · have hb : (!(r.1 == k)) = false := by
          rw [beq_iff_eq.mpr hr]; rfl
        rw [hb, if_neg (by simp), ih]
      · have hb : (!(r.1 == k)) = true := by
          rw [beq_eq_false_iff_ne.mpr hr]; rfl
        rw [hb, if_pos rfl, tlookup_cons, if_neg hr, ih]

theorem tlookup_replaceRow_self (t : Table B) (k : PyValue) (b : B) :
    tlookup (replaceRow t k b) k = some b := by
  rw [replaceRow, tlookup_append, tlookup_filter_self]
  simp [tlookup_cons]

theorem tlookup_replaceRow_ne (t : Table B) (k2 k : PyValue) (b : B) (h : k2 ≠ k) :
    tlookup (replaceRow t k2 b) k = tlookup t k := by
  rw [replaceRow, tlookup_append, tlookup_filter_ne t k2 k h]
  cases hcase : tlookup t k with
  | some b2 => rfl
  | none => simp [tlookup_cons, h, tlookup]

theorem tlookup_deleteRow_ne (t : Table B) (k2 k : PyValue) (h : k2 ≠ k) :
    tlookup (deleteRow t k2) k = tlookup t k :=
  tlookup_filter_ne t k2 k h

theorem tlookup_singleton_ne (k2 k : PyValue) (b : B) (h : k2 ≠ k) :
    tlookup ([(k2, b)] : Table B) k = none := by
  simp [tlookup_cons, h, tlookup]

/-! ## Helper lemmas about the worker loop -/

theorem runWorker_nil (auto : Bool) (w : WState B) :
    runWorker auto w [] = ⟨w, [], []⟩ := rfl

theorem runWorker_cons_of_not_close (auto : Bool) (w : WState B) (e : Entry B)
    (rest : List (Entry B)) (he : e.req.isClose = false) :
    runWorker auto w (e :: rest) =
      ⟨(runWorker auto (runStep auto w e).1 rest).final,
       (runStep auto w e).2 :: (runWorker auto (runStep auto w e).1 rest).outs,
       e.req :: (runWorker auto (runStep auto w e).1 rest).applied⟩ := by
  rw [runWorker]
  rw [if_neg (by simp [he])]

theorem runWorker_append (auto : Bool) (w : WState B) (l1 l2 : List (Entry B))
    (h : ∀ e ∈ l1, e.req.isClose = false) :
    runWorker auto w (l1 ++ l2) =
      ⟨(runWorker auto (runWorker auto w l1).final l2).final,
       (runWorker auto w l1).outs ++ (runWorker auto (runWorker auto w l1).final l2).outs,
       (runWorker auto w l1).applied ++ (runWorker auto (runWorker auto w l1).final l2).applied⟩ := by
  induction l1 generalizing w with
  | nil => simp [runWorker]
  | cons e l1 ih =>
      have he : e.req.isClose = false := h e (List.mem_cons_self _ _)
      have hrest : ∀ x ∈ l1, x.req.isClose = false :=
        fun x hx => h x (List.mem_cons_of_mem _ hx)
      rw [List.cons_append, runWorker_cons_of_not_close auto w e (l1 ++ l2) he,
        runWorker_cons_of_not_close auto w e l1 he, ih (runStep auto w e).1 hrest]
      simp

theorem runWorker_applied (auto : Bool) (w : WState B) (q : List (Entry B))
    (h : ∀ e ∈ q, e.req.isClose = false) :
    (runWorker auto w q).applied = q.map Entry.req := by
  induction q generalizing w with
  | nil => rfl
  | cons e q ih =>
      rw [runWorker_cons_of_not_close auto w e q (h e (List.mem_cons_self _ _))]
      simp [ih (runStep auto w e).1 (fun x hx => h x (List.mem_cons_of_mem _ hx))]

theorem runStep_table_of_not_writes (auto : Bool) (w : WState B) (e : Entry B)
    (k : PyValue) (hw : e.req.writesKey k = false) :
    tlookup (runStep auto w e).1.table k = tlookup w.table k := by
  match e, hw with
  | ⟨.closeReq, hr⟩, hw => rfl
  | ⟨.commitReq, hr⟩, hw => rfl
  | ⟨.sqlReq s, hr⟩, hw =>
      cases s with
      | addItem k2 b =>
          have hne : k2 ≠ k := by
            simpa [Req.writesKey, Stmt.writesKey] using hw
          by_cases hb : bindable k2
          · simp [runStep, execStmt, hb, tlookup_replaceRow_ne _ _ _ _ hne]
          · simp [runStep, execStmt, hb]
      | delItem k2 =>
          have hne : k2 ≠ k := by
            simpa [Req.writesKey, Stmt.writesKey] using hw
          by_cases hb : bindable k2
          · simp [runStep, execStmt, hb, tlookup_deleteRow_ne _ _ _ hne]
          · simp [runStep, execStmt, hb]
      | getItem k2 =>
          by_cases hb : bindable k2
          · simp [runStep, execStmt, hb]
          · simp [runStep, execStmt, hb]
      | hasItem k2 =>
          by_cases hb : bindable k2
          · simp [runStep, execStmt, hb]
          · simp [runStep, execStmt, hb]
      | getLen => simp [runStep, execStmt]
      | clearAll => simp [Req.writesKey, Stmt.writesKey] at hw
      | failingStmt msg => simp [runStep, execStmt]

theorem tlookup_runWorker_of_not_writes (auto : Bool) (w : WState B)
    (q : List (Entry B)) (k : PyValue)
    (h : ∀ e ∈ q, e.req.isClose = false ∧ e.req.writesKey k = false) :
    tlookup (runWorker auto w q).final.table k = tlookup w.table k := by
  induction q generalizing w with
  | nil => rfl
  | cons e q ih =>
      rw [runWorker_cons_of_not_close auto w e q (h e (List.mem_cons_self _ _)).1]
      rw [ih (runStep auto w e).1 (fun x hx => h x (List.mem_cons_of_mem _ hx))]
      exact runStep_table_of_not_writes auto w e k (h e (List.mem_cons_self _ _)).2

theorem getLast?_append_block {α : Type} (a c : List α) (x d : α) :
    (a ++ x :: (c ++ [d])).getLast? = some d := by
  have h : a ++ x :: (c ++ [d]) = (a ++ x :: c) ++ [d] := by simp
  rw [h, List.getLast?_append_of_ne_nil _ (by simp)]
  rfl

/-- Per-entry shape of the worker's answer on a non-close entry: when the entry
carries a result queue the queue is always terminated by the NO_MORE sentinel
(also when the statement fails), and when it does not, nothing is sent. -/
theorem runStep_out_terminated (auto : Bool) (w : WState B) (e : Entry B)
    (hne : e.req.isClose = false) :
    (e.hasRes = true →
      ∃ msgs, (runStep auto w e).2 = some msgs ∧ msgs.getLast? = some Msg.noMore) ∧
    (e.hasRes = false → (runStep auto w e).2 = none) := by
  match e, hne with
  | ⟨.commitReq, hr⟩, hne =>
      cases hr <;> simp [runStep]
  | ⟨.sqlReq s, hr⟩, hne =>
      cases hr with
      | false =>
          cases hs : execStmt w.table s with
          | ok p => simp [runStep, hs]
          | error msg => simp [runStep, hs]
      | true =>
          cases hs : execStmt w.table s with
          | ok p =>
              refine ⟨fun _ => ⟨p.2.map Msg.row ++ [Msg.noMore], ?_, ?_⟩, by simp [runStep, hs]⟩
              · simp [runStep, hs]
              · rw [List.getLast?_concat]
          | error msg =>
              exact ⟨fun _ => ⟨[Msg.noMore], by simp [runStep, hs], rfl⟩,
                by simp [runStep, hs]⟩

/-- A worker whose table maps a bindable key to a value answers a point SELECT
for that key with exactly that value followed by the sentinel. -/
theorem runWorker_single_get (auto : Bool) (w : WState B) (k : PyValue) (b : B)
    (hbind : bindable k = true) (h : tlookup w.table k = some b) :
    runWorker auto w [⟨.sqlReq (.getItem k), true⟩] =
      ⟨⟨w.table, if auto then w.table else w.durable, w.exc⟩,
       [some [Msg.row [Cell.blobCell b], Msg.noMore]], [.sqlReq (.getItem k)]⟩ := by
  simp [runWorker, runStep, execStmt, hbind, h, Req.isClose]

/-- The queue of C1: arbitrary commands, then a write of the key, then
arbitrary commands not writing the key, then a point read of the key with a
result queue. -/
def rwQueue (wr : Bool) (pre mid : List (Entry B)) (k : PyValue) (b : B) : List (Entry B) :=
  pre ++ ⟨.sqlReq (.addItem k b), wr⟩ :: (mid ++ [⟨.sqlReq (.getItem k), true⟩])

/-- C1: commands are applied in exactly their global enqueue order (FIFO per
Store), and a read enqueued after a write — with no intervening command
writing the same key — observes that write: the reader's result queue receives
exactly the written value followed by the sentinel. -/
theorem fifo_read_after_write (auto wr : Bool) (w : WState B)
    (pre mid : List (Entry B)) (k : PyValue) (b : B)
    (hbind : bindable k = true)
    (hpre : ∀ e ∈ pre, e.req.isClose = false)
    (hmid : ∀ e ∈ mid, e.req.isClose = false ∧ e.req.writesKey k = false) :
    (runWorker auto w (rwQueue wr pre mid k b)).applied =
      (rwQueue wr pre mid k b).map Entry.req ∧
    (runWorker auto w (rwQueue wr pre mid k b)).outs.getLast? =
      some (some [Msg.row [Cell.blobCell b], Msg.noMore]) := by
  have hq : ∀ e ∈ rwQueue wr pre mid k b, e.req.isClose = false := by
    intro e he
    rw [rwQueue] at he
    rcases List.mem_append.mp he with h1 | h1
    · exact hpre e h1
    · rcases List.mem_cons.mp h1 with h2 | h2
      · subst h2; rfl
      · rcases List.mem_append.mp h2 with h3 | h3
        · exact (hmid e h3).1
        · rcases List.mem_singleton.mp h3 with rfl
          rfl
  refine ⟨runWorker_applied _ _ _ hq, ?_⟩
  rw [rwQueue, runWorker_append auto w pre _ hpre]
  dsimp only
  rw [runWorker_cons_of_not_close auto ((runWorker auto w pre).final)
    (Entry.mk (Req.sqlReq (Stmt.addItem k b)) wr)
    (mid ++ [Entry.mk (Req.sqlReq (Stmt.getItem k)) true]) (by rfl)]
  dsimp only
  rw [runWorker_append auto
    ((runStep auto (runWorker auto w pre).final (Entry.mk (Req.sqlReq (Stmt.addItem k b)) wr)).1)
    mid [Entry.mk (Req.sqlReq (Stmt.getItem k)) true] (fun e he => (hmid e he).1)]
  dsimp only
  have hw2 : tlookup (runStep auto (runWorker auto w pre).final
      (Entry.mk (Req.sqlReq (Stmt.addItem k b)) wr)).1.table k = some b := by
    simp [runStep, execStmt, hbind, tlookup_replaceRow_self]
  have hw3 : tlookup (runWorker auto (runStep auto (runWorker auto w pre).final
      (Entry.mk (Req.sqlReq (Stmt.addItem k b)) wr)).1 mid).final.table k = some b := by
    rw [tlookup_runWorker_of_not_writes auto _ mid k hmid]
    exact hw2
  rw [runWorker_single_get auto ((runWorker auto (runStep auto (runWorker auto w pre).final
      (Entry.mk (Req.sqlReq (Stmt.addItem k b)) wr)).1 mid).final) k b hbind hw3]
  exact getLast?_append_block _ _ _ _

/-- C4: on a close-free queue the worker processes every entry — failing
statements included — and every entry that carries a result queue gets that
queue terminated with the NO_MORE sentinel, so no blocked caller waits forever
and later commands still run. -/
theorem worker_never_leaves_channel_open (auto : Bool) (w : WState B)
    (q : List (Entry B)) (h : ∀ e ∈ q, e.req.isClose = false) :
    (runWorker auto w q).applied = q.map Entry.req ∧
    List.Forall₂ (fun (e : Entry B) (out : Option (List (Msg B))) =>
        (e.hasRes = true →
          ∃ msgs, out = some msgs ∧ msgs.getLast? = some Msg.noMore) ∧
        (e.hasRes = false → out = none))
      q (runWorker auto w q).outs := by
  refine ⟨runWorker_applied _ _ _ h, ?_⟩
  induction q generalizing w with
  | nil => exact List.Forall₂.nil
  | cons e q ih =>
      rw [runWorker_cons_of_not_close auto w e q (h e (List.mem_cons_self _ _))]
      exact List.Forall₂.cons
        (runStep_out_terminated auto w e (h e (List.mem_cons_self _ _)))
        (ih (runStep auto w e).1 (fun x hx => h x (List.mem_cons_of_mem _ hx)))

/-- C3: a failure recorded by the worker is re-raised at exactly the first
subsequent caller interaction (here an enqueue attempt, which the raise
aborts before anything is queued), that interaction clears the slot, and the
next interaction — no new failure having occurred — raises nothing and
enqueues normally. -/
theorem deferred_failure_raised_exactly_once (auto : Bool) (w0 : WState B)
    (q : List (Entry B)) (msg : String) (e1 e2 : Entry B)
    (hfail : (runWorker auto w0 q).final.exc = some msg) :
    mtExecute ⟨(runWorker auto w0 q).final, []⟩ e1 =
      ((⟨{ (runWorker auto w0 q).final with exc := none }, []⟩ : MTState B), some msg) ∧
    mtExecute (mtExecute ⟨(runWorker auto w0 q).final, []⟩ e1).1 e2 =
      ((⟨{ (runWorker auto w0 q).final with exc := none }, [e2]⟩ : MTState B), none) := by
  constructor
  · simp [mtExecute, check_raise_error, hfail]
  · simp [mtExecute, check_raise_error, hfail]

/-- C7: with no failure pending, a blocking commit returns only once the
worker has executed the commit — at return the durable contents equal the
connection's table contents — having drained (and raised, if present) the
deferred failure recorded while the backlog ran; a non-blocking commit merely
appends the COMMIT marker to the queue and leaves the worker state (durable
contents included) untouched. -/
theorem commit_blocking_vs_nonblocking (auto : Bool) (m : MTState B)
    (hq : ∀ e ∈ m.reqs, e.req.isClose = false)
    (hexc : m.worker.exc = none) :
    ((mtCommit auto m true).1.worker.durable = (mtCommit auto m true).1.worker.table ∧
     (mtCommit auto m true).1.worker.exc = none ∧
     (mtCommit auto m true).1.reqs = [] ∧
     (mtCommit auto m true).2 =
       (match (runWorker auto m.worker m.reqs).final.exc with
        | some e => Except.error e
        | none => Except.ok ())) ∧
    mtCommit auto m false =
      ({ m with reqs := m.reqs ++ [⟨Req.commitReq, false⟩] }, .ok ()) := by
  constructor
  · have hstep : runWorker auto m.worker (m.reqs ++ [⟨Req.commitReq, true⟩]) =
        ⟨⟨(runWorker auto m.worker m.reqs).final.table,
          (runWorker auto m.worker m.reqs).final.table,
          (runWorker auto m.worker m.reqs).final.exc⟩,
         (runWorker auto m.worker m.reqs).outs ++ [some [Msg.noMore]],
         (runWorker auto m.worker m.reqs).applied ++ [Req.commitReq]⟩ := by
      rw [runWorker_append auto m.worker m.reqs _ hq]
      rfl
    have hcre : check_raise_error m.worker = (m.worker, none) := by
      rw [check_raise_error, hexc]
    cases hcase : (runWorker auto m.worker m.reqs).final.exc with
    | some e =>
        simp [mtCommit, mtBlocking, hexc, hstep, List.getLast?_concat,
          drainLoop, check_raise_error, hcase, Except.map]
    | none =>
        simp [mtCommit, mtBlocking, hexc, hstep, List.getLast?_concat,
          drainLoop, check_raise_error, hcase, Except.map]
  · simp [mtCommit, mtExecute, check_raise_error, hexc]

/-- Witness for C1: a concrete run — a write of "a", one unrelated command,
then the read — observes the written value. -/
theorem fifo_read_after_write_witness :
    (runWorker false (⟨[], [], none⟩ : WState PyValue)
        (rwQueue false [] [Entry.mk (Req.sqlReq Stmt.getLen) false] (PyValue.pyStr "a") (PyValue.pyInt 1))).applied =
      (rwQueue false [] [Entry.mk (Req.sqlReq Stmt.getLen) false] (PyValue.pyStr "a") (PyValue.pyInt 1)).map Entry.req ∧
    (runWorker false (⟨[], [], none⟩ : WState PyValue)
        (rwQueue false [] [Entry.mk (Req.sqlReq Stmt.getLen) false] (PyValue.pyStr "a") (PyValue.pyInt 1))).outs.getLast? =
      some (some [Msg.row [Cell.blobCell (PyValue.pyInt 1)], Msg.noMore]) :=
  fifo_read_after_write false false ⟨[], [], none⟩ [] [Entry.mk (Req.sqlReq Stmt.getLen) false]
    (PyValue.pyStr "a") (PyValue.pyInt 1) rfl (by simp) (by decide)

/-- Witness for C3: a queue whose only statement fails; the first enqueue
afterwards raises the failure, the second does not. -/
theorem deferred_failure_raised_exactly_once_witness :
    mtExecute ⟨(runWorker false (⟨[], [], none⟩ : WState PyValue)
        [Entry.mk (Req.sqlReq (Stmt.failingStmt "no such table")) false]).final, []⟩
      (Entry.mk (Req.sqlReq Stmt.getLen) false) =
      ((⟨{ (runWorker false (⟨[], [], none⟩ : WState PyValue)
          [Entry.mk (Req.sqlReq (Stmt.failingStmt "no such table")) false]).final with exc := none },
        []⟩ : MTState PyValue), some "no such table") ∧
    mtExecute (mtExecute ⟨(runWorker false (⟨[], [], none⟩ : WState PyValue)
        [Entry.mk (Req.sqlReq (Stmt.failingStmt "no such table")) false]).final, []⟩
      (Entry.mk (Req.sqlReq Stmt.getLen) false)).1 (Entry.mk (Req.sqlReq .clearAll) false) =
      ((⟨{ (runWorker false (⟨[], [], none⟩ : WState PyValue)
          [Entry.mk (Req.sqlReq (Stmt.failingStmt "no such table")) false]).final with exc := none },
        [Entry.mk (Req.sqlReq .clearAll) false]⟩ : MTState PyValue), none) :=
  deferred_failure_raised_exactly_once false ⟨[], [], none⟩
    [Entry.mk (Req.sqlReq (Stmt.failingStmt "no such table")) false] "no such table"
    (Entry.mk (Req.sqlReq Stmt.getLen) false) (Entry.mk (Req.sqlReq .clearAll) false) (by rfl)

/-- Witness for C4: a concrete queue starting with a failing statement; both
result queues still end with the sentinel and both commands are applied. -/
theorem worker_never_leaves_channel_open_witness :
    (runWorker false (⟨[], [], none⟩ : WState PyValue)
        [Entry.mk (Req.sqlReq (Stmt.failingStmt "malformed")) true,
         Entry.mk (Req.sqlReq (Stmt.addItem (PyValue.pyStr "a") (PyValue.pyInt 1))) true]).applied =
      [Entry.mk (Req.sqlReq (Stmt.failingStmt "malformed")) true,
       Entry.mk (Req.sqlReq (Stmt.addItem (PyValue.pyStr "a") (PyValue.pyInt 1))) true].map Entry.req ∧
    List.Forall₂ (fun (e : Entry PyValue) (out : Option (List (Msg PyValue))) =>
        (e.hasRes = true →
          ∃ msgs, out = some msgs ∧ msgs.getLast? = some Msg.noMore) ∧
        (e.hasRes = false → out = none))
      [Entry.mk (Req.sqlReq (Stmt.failingStmt "malformed")) true,
       Entry.mk (Req.sqlReq (Stmt.addItem (PyValue.pyStr "a") (PyValue.pyInt 1))) true]
      (runWorker false (⟨[], [], none⟩ : WState PyValue)
        [Entry.mk (Req.sqlReq (Stmt.failingStmt "malformed")) true,
         Entry.mk (Req.sqlReq (Stmt.addItem (PyValue.pyStr "a") (PyValue.pyInt 1))) true]).outs :=
  worker_never_leaves_channel_open false ⟨[], [], none⟩
    [Entry.mk (Req.sqlReq (Stmt.failingStmt "malformed")) true,
     Entry.mk (Req.sqlReq (Stmt.addItem (PyValue.pyStr "a") (PyValue.pyInt 1))) true] (by decide)

/-- Witness for C7: a concrete pending write, then a blocking commit — at
return the durable table equals the live table; the non-blocking variant only
queues the marker. -/
theorem commit_blocking_vs_nonblocking_witness :
    ((mtCommit false (⟨⟨[], [], none⟩,
        [Entry.mk (Req.sqlReq (Stmt.addItem (PyValue.pyStr "a") (PyValue.pyInt 1))) false]⟩ : MTState PyValue)
        true).1.worker.durable =
      (mtCommit false (⟨⟨[], [], none⟩,
        [Entry.mk (Req.sqlReq (Stmt.addItem (PyValue.pyStr "a") (PyValue.pyInt 1))) false]⟩ : MTState PyValue)
        true).1.worker.table ∧
     (mtCommit false (⟨⟨[], [], none⟩,
        [Entry.mk (Req.sqlReq (Stmt.addItem (PyValue.pyStr "a") (PyValue.pyInt 1))) false]⟩ : MTState PyValue)
        true).1.worker.exc = none ∧
     (mtCommit false (⟨⟨[], [], none⟩,
        [Entry.mk (Req.sqlReq (Stmt.addItem (PyValue.pyStr "a") (PyValue.pyInt 1))) false]⟩ : MTState PyValue)
        true).1.reqs = [] ∧
     (mtCommit false (⟨⟨[], [], none⟩,
        [Entry.mk (Req.sqlReq (Stmt.addItem (PyValue.pyStr "a") (PyValue.pyInt 1))) false]⟩ : MTState PyValue)
        true).2 =
       (match (runWorker false (⟨⟨[], [], none⟩,
          [Entry.mk (Req.sqlReq (Stmt.addItem (PyValue.pyStr "a") (PyValue.pyInt 1))) false]⟩ : MTState PyValue).worker
          [Entry.mk (Req.sqlReq (Stmt.addItem (PyValue.pyStr "a") (PyValue.pyInt 1))) false]).final.exc with
        | some e => Except.error e
        | none => Except.ok ())) ∧
    mtCommit false (⟨⟨[], [], none⟩,
        [Entry.mk (Req.sqlReq (Stmt.addItem (PyValue.pyStr "a") (PyValue.pyInt 1))) false]⟩ : MTState PyValue)
      false =
      ({ (⟨⟨[], [], none⟩,
          [Entry.mk (Req.sqlReq (Stmt.addItem (PyValue.pyStr "a") (PyValue.pyInt 1))) false]⟩ : MTState PyValue) with
        reqs := [Entry.mk (Req.sqlReq (Stmt.addItem (PyValue.pyStr "a") (PyValue.pyInt 1))) false] ++
          [⟨Req.commitReq, false⟩] }, .ok ()) :=
  commit_blocking_vs_nonblocking false
    ⟨⟨[], [], none⟩, [Entry.mk (Req.sqlReq (Stmt.addItem (PyValue.pyStr "a") (PyValue.pyInt 1))) false]⟩
    (by decide) (by rfl)

/-- A key produced by the normalizer is always a bindable scalar: composites
become strings and everything else was a scalar to begin with. -/
theorem serializeKey_bindable : ∀ k key : PyValue,
    serializeKey k = .ok key → bindable key = true := by
  intro k key h
  cases k with
  | pyTuple l =>
      cases hj : jsonDumps (.pyTuple l) with
      | some s =>
          simp only [serializeKey, hj] at h
          injection h with h2
          subst h2
          rfl
      | none =>
          simp only [serializeKey, hj] at h
          exact Except.noConfusion h
  | pySet l =>
      cases hj : jsonDumps (.pyTuple l) with
      | some s =>
          simp only [serializeKey, hj] at h
          injection h with h2
          subst h2
          rfl
      | none =>
          simp only [serializeKey, hj] at h
          exact Except.noConfusion h
  | pyFrozenset l =>
      cases hj : jsonDumps (.pyTuple l) with
      | some s =>
          simp only [serializeKey, hj] at h
          injection h with h2
          subst h2
          rfl
      | none =>
          simp only [serializeKey, hj] at h
          exact Except.noConfusion h
  | pyDict ps =>
      cases hj : jsonDumps (.pyDict ps) with
      | some s =>
          simp only [serializeKey, hj] at h
          injection h with h2
          subst h2
          rfl
      | none =>
          simp only [serializeKey, hj] at h
          exact Except.noConfusion h
  | pyNone => injection h with h2; subst h2; rfl
  | pyBool b => injection h with h2; subst h2; rfl
  | pyInt n => injection h with h2; subst h2; rfl
  | pyStr s => injection h with h2; subst h2; rfl

/-- Composite keys are not bindable as sqlite parameters. -/
theorem composite_not_bindable (k : PyValue) (h : isComposite k = true) :
    bindable k = false := by
  cases k with
  | pyTuple l => rfl
  | pySet l => rfl
  | pyFrozenset l => rfl
  | pyDict ps => rfl
  | pyNone => simp [isComposite] at h
  | pyBool b => simp [isComposite] at h
  | pyInt n => simp [isComposite] at h
  | pyStr s => simp [isComposite] at h

/-- C2: on an idle store with no deferred failure, writable and with a
serializable key, a set followed by a get of the same key returns a value
equal to the one written, for every value the codec round-trips
(decode (encode v) = v). -/
theorem set_then_get_roundtrip (d : SqliteDict B V) (m : MTState B)
    (k key : PyValue) (v : V)
    (hconn : d.conn = some m) (hidle : m.reqs = []) (hexc : m.worker.exc = none)
    (hflag : ¬ d.flag = "r") (hkey : serializeKey k = .ok key)
    (hcodec : d.decode (d.encode v) = v) :
    (SqliteDict.setitem d k v).2 = .ok () ∧
    (SqliteDict.getitem (SqliteDict.setitem d k v).1 k).2 = .ok v := by
  have hbind : bindable key = true := serializeKey_bindable k key hkey
  cases hauto : d.autocommit with
  | false =>
      simp [SqliteDict.setitem, SqliteDict.getitem, SqliteDict.commit, mtCommit, mtExecute,
        mtBlocking, mtSelect, mtSelectOne, check_raise_error, drainLoop, runWorker, runStep,
        execStmt, Req.isClose, rowBlob, hconn, hidle, hexc, hkey, hflag, hauto, hcodec,
        hbind, tlookup_replaceRow_self, Except.map, List.head?]
  | true =>
      simp [SqliteDict.setitem, SqliteDict.getitem, SqliteDict.commit, mtCommit, mtExecute,
        mtBlocking, mtSelect, mtSelectOne, check_raise_error, drainLoop, runWorker, runStep,
        execStmt, Req.isClose, rowBlob, hconn, hidle, hexc, hkey, hflag, hauto, hcodec,
        hbind, tlookup_replaceRow_self, Except.map, List.head?]

/-- Serializing an already-serialized key is the identity: the normalizer
yields either the original scalar or a string, and both pass through
unchanged on a second call (relevant because `__delitem__` hands the
serialized key to `__contains__`, which serializes it again). -/
theorem serializeKey_idempotent : ∀ k key : PyValue,
    serializeKey k = .ok key → serializeKey key = .ok key := by
  intro k key h
  cases k with
  | pyTuple l =>
      cases hj : jsonDumps (.pyTuple l) with
      | some s =>
          simp only [serializeKey, hj] at h
          injection h with h2
          subst h2
          rfl
      | none =>
          simp only [serializeKey, hj] at h
          exact Except.noConfusion h
  | pySet l =>
      cases hj : jsonDumps (.pyTuple l) with
      | some s =>
          simp only [serializeKey, hj] at h
          injection h with h2
          subst h2
          rfl
      | none =>
          simp only [serializeKey, hj] at h
          exact Except.noConfusion h
  | pyFrozenset l =>
      cases hj : jsonDumps (.pyTuple l) with
      | some s =>
          simp only [serializeKey, hj] at h
          injection h with h2
          subst h2
          rfl
      | none =>
          simp only [serializeKey, hj] at h
          exact Except.noConfusion h
  | pyDict ps =>
      cases hj : jsonDumps (.pyDict ps) with
      | some s =>
          simp only [serializeKey, hj] at h
          injection h with h2
          subst h2
          rfl
      | none =>
          simp only [serializeKey, hj] at h
          exact Except.noConfusion h
  | pyNone => injection h with h2; subst h2; rfl
  | pyBool b => injection h with h2; subst h2; rfl
  | pyInt n => injection h with h2; subst h2; rfl
  | pyStr s => injection h with h2; subst h2; rfl

/-- C5: on an idle store with no deferred failure, the facade get of a key
absent from the table returns the explicit absence signal (the default, None)
and raises nothing — the KeyError of `__getitem__` is caught inside get. -/
theorem get_absent_returns_default (d : SqliteDict B V) (m : MTState B)
    (k key : PyValue)
    (hconn : d.conn = some m) (hidle : m.reqs = []) (hexc : m.worker.exc = none)
    (hkey : serializeKey k = .ok key)
    (habsent : tlookup m.worker.table key = none) :
    (SqliteDict.get d k none).2 = .ok none := by
  have hbind : bindable key = true := serializeKey_bindable k key hkey
  simp [SqliteDict.get, SqliteDict.getitem, mtSelectOne, mtSelect, mtBlocking,
    check_raise_error, drainLoop, runWorker, runStep, execStmt, Req.isClose, rowBlob,
    hconn, hidle, hexc, hkey, hbind, habsent, Except.map, List.head?]

/-- C6: delete on a read-only store raises the read-only refusal immediately,
with the store left untouched and nothing enqueued, regardless of whether the
key exists (the mode check precedes the existence check); otherwise the
existence check — a separate blocking round trip made before any delete is
issued — raises KeyError on an absent key and leaves the table unchanged;
otherwise the delete goes through and a subsequent contains is false. -/
theorem delitem_mode_then_existence (d : SqliteDict B V) (m : MTState B)
    (k key : PyValue)
    (hconn : d.conn = some m) (hidle : m.reqs = []) (hexc : m.worker.exc = none)
    (hkey : serializeKey k = .ok key) :
    (d.flag = "r" →
      SqliteDict.delitem d k =
        (d, .error (.runtimeError "Refusing to delete from read-only SqliteDict"))) ∧
    (¬ d.flag = "r" → tlookup m.worker.table key = none →
      (SqliteDict.delitem d k).2 = .error (.keyError key) ∧
      ∃ m2, (SqliteDict.delitem d k).1.conn = some m2 ∧
        m2.worker.table = m.worker.table) ∧
    (¬ d.flag = "r" → ∀ b, tlookup m.worker.table key = some b →
      (SqliteDict.delitem d k).2 = .ok () ∧
      (SqliteDict.hasKey (SqliteDict.delitem d k).1 k).2 = .ok false) := by
  have hkey2 : serializeKey key = .ok key := serializeKey_idempotent k key hkey
  have hbind : bindable key = true := serializeKey_bindable k key hkey
  refine ⟨?_, ?_, ?_⟩
  · intro hr
    simp [SqliteDict.delitem, hkey, hr]
  · intro hnr habs
    simp [SqliteDict.delitem, SqliteDict.hasKey, mtSelectOne, mtSelect, mtBlocking,
      check_raise_error, drainLoop, runWorker, runStep, execStmt, Req.isClose,
      hconn, hidle, hexc, hkey, hkey2, hbind, hnr, habs, Except.map, List.head?]
  · intro hnr b hb
    cases hauto : d.autocommit with
    | false =>
        simp [SqliteDict.delitem, SqliteDict.hasKey, SqliteDict.commit, mtCommit,
          mtExecute, mtSelectOne, mtSelect, mtBlocking, check_raise_error, drainLoop,
          runWorker, runStep, execStmt, Req.isClose, deleteRow,
          hconn, hidle, hexc, hkey, hkey2, hbind, hnr, hb, hauto, Except.map, List.head?,
          tlookup_filter_self]
    | true =>
        simp [SqliteDict.delitem, SqliteDict.hasKey, SqliteDict.commit, mtCommit,
          mtExecute, mtSelectOne, mtSelect, mtBlocking, check_raise_error, drainLoop,
          runWorker, runStep, execStmt, Req.isClose, deleteRow,
          hconn, hidle, hexc, hkey, hkey2, hbind, hnr, hb, hauto, Except.map, List.head?,
          tlookup_filter_self]

/-- A composite key serializes to a string, which in particular differs from
the composite key itself. -/
theorem serializeKey_composite_is_string (k key : PyValue)
    (hcomp : isComposite k = true) (hkey : serializeKey k = .ok key) :
    (∃ s, key = .pyStr s) ∧ k ≠ key := by
  have hs : ∃ s, key = PyValue.pyStr s := by
    cases k with
    | pyTuple l =>
        cases hj : jsonDumps (.pyTuple l) with
        | some s =>
            simp only [serializeKey, hj] at hkey
            injection hkey with h2
            exact ⟨s, h2.symm⟩
        | none =>
            simp only [serializeKey, hj] at hkey
            exact Except.noConfusion hkey
    | pySet l =>
        cases hj : jsonDumps (.pyTuple l) with
        | some s =>
            simp only [serializeKey, hj] at hkey
            injection hkey with h2
            exact ⟨s, h2.symm⟩
        | none =>
            simp only [serializeKey, hj] at hkey
            exact Except.noConfusion hkey
    | pyFrozenset l =>
        cases hj : jsonDumps (.pyTuple l) with
        | some s =>
            simp only [serializeKey, hj] at hkey
            injection hkey with h2
            exact ⟨s, h2.symm⟩
        | none =>
            simp only [serializeKey, hj] at hkey
            exact Except.noConfusion hkey
    | pyDict ps =>
        cases hj : jsonDumps (.pyDict ps) with
        | some s =>
            simp only [serializeKey, hj] at hkey
            injection hkey with h2
            exact ⟨s, h2.symm⟩
        | none =>
            simp only [serializeKey, hj] at hkey
            exact Except.noConfusion hkey
    | pyNone => simp [isComposite] at hcomp
    | pyBool b => simp [isComposite] at hcomp
    | pyInt n => simp [isComposite] at hcomp
    | pyStr s => simp [isComposite] at hcomp
  refine ⟨hs, ?_⟩
  obtain ⟨s, rfl⟩ := hs
  intro he
  rw [he] at hcomp
  simp [isComposite] at hcomp

/-- C10 amended: update encodes values but does not pass keys through the
normalizer, so for a composite key the raw key reaches the REPLACE as a bind
parameter and binding fails on the worker thread (sqlite3.InterfaceError, a
deferred sqlite3.Error) — nothing is ever stored under the raw key.  Without
autocommit, update returns normally and the subsequent get of the key (which
looks up the normalized string) raises the deferred binding error instead of
returning the value; with autocommit, update itself raises it at its blocking
commit.  Either way get never returns the written value. -/
theorem update_skips_key_normalization (d : SqliteDict B V) (m : MTState B)
    (k key : PyValue) (v : V)
    (hconn : d.conn = some m) (hidle : m.reqs = []) (hexc : m.worker.exc = none)
    (hempty : m.worker.table = []) (hflag : ¬ d.flag = "r")
    (hcomp : isComposite k = true) (hkey : serializeKey k = .ok key) :
    (d.autocommit = false →
      (SqliteDict.update d [(k, v)]).2 = .ok () ∧
      (SqliteDict.getitem (SqliteDict.update d [(k, v)]).1 k).2 =
        .error (.sqliteError bindErrorMsg) ∧
      (∃ m2, (SqliteDict.getitem (SqliteDict.update d [(k, v)]).1 k).1.conn = some m2 ∧
        m2.worker.table = [])) ∧
    (d.autocommit = true →
      (SqliteDict.update d [(k, v)]).2 = .error (.sqliteError bindErrorMsg) ∧
      (∃ m2, (SqliteDict.update d [(k, v)]).1.conn = some m2 ∧
        m2.worker.table = [])) := by
  have hbf : bindable k = false := composite_not_bindable k hcomp
  have hbind : bindable key = true := serializeKey_bindable k key hkey
  constructor
  · intro hauto
    simp [SqliteDict.update, SqliteDict.getitem, SqliteDict.commit, mtCommit,
      mtExecuteMany, mtExecute, mtSelectOne, mtSelect, mtBlocking, check_raise_error,
      drainLoop, runWorker, runStep, execStmt, Req.isClose, tlookup,
      hconn, hidle, hexc, hkey, hflag, hempty, hauto, hbf, hbind,
      Except.map, List.head?]
  · intro hauto
    simp [SqliteDict.update, SqliteDict.getitem, SqliteDict.commit, mtCommit,
      mtExecuteMany, mtExecute, mtSelectOne, mtSelect, mtBlocking, check_raise_error,
      drainLoop, runWorker, runStep, execStmt, Req.isClose, tlookup,
      hconn, hidle, hexc, hkey, hflag, hempty, hauto, hbf, hbind,
      Except.map, List.head?]

/-! ## Claims C8 and C9 and concrete witnesses -/

/-- C8 counterexample: two dict objects that are equal as Python values
(`\x7b"a": 1, "b": 2\x7d` and `\x7b"b": 2, "a": 1\x7d` built in different
insertion orders) are normalized by the key serializer to two different
strings, because json.dumps follows insertion order — so the normal form is
not canonical for equal composite keys. -/
theorem serialize_key_not_canonical :
    pyDictEqv
      (PyPairs.cons (.pyStr "a") (.pyInt 1) (.cons (.pyStr "b") (.pyInt 2) .nil))
      (PyPairs.cons (.pyStr "b") (.pyInt 2) (.cons (.pyStr "a") (.pyInt 1) .nil)) = true ∧
    serializeKey (.pyDict
      (PyPairs.cons (.pyStr "a") (.pyInt 1) (.cons (.pyStr "b") (.pyInt 2) .nil))) =
      .ok (.pyStr "\x7b\x22a\x22: 1, \x22b\x22: 2\x7d") ∧
    serializeKey (.pyDict
      (PyPairs.cons (.pyStr "b") (.pyInt 2) (.cons (.pyStr "a") (.pyInt 1) .nil))) =
      .ok (.pyStr "\x7b\x22b\x22: 2, \x22a\x22: 1\x7d") ∧
    ("\x7b\x22a\x22: 1, \x22b\x22: 2\x7d" : String) ≠ "\x7b\x22b\x22: 2, \x22a\x22: 1\x7d" := by
  refine ⟨by decide, by rfl, by rfl, by decide⟩

/-- C8 amended: the key normalizer passes every scalar key through unchanged,
and maps every composite key (when its contents are JSON-serializable) to a
string — but that string is determined by the key's iteration/insertion
order, not by the key's Python value, so equal sets or dicts can normalize to
different strings. -/
theorem serialize_key_scalar_passthrough_composite_string (k : PyValue) :
    (isComposite k = false → serializeKey k = .ok k) ∧
    (isComposite k = true → ∀ key, serializeKey k = .ok key → ∃ s, key = .pyStr s) := by
  constructor
  · intro h
    cases k with
    | pyNone => rfl
    | pyBool b => rfl
    | pyInt n => rfl
    | pyStr s => rfl
    | pyTuple l => simp [isComposite] at h
    | pySet l => simp [isComposite] at h
    | pyFrozenset l => simp [isComposite] at h
    | pyDict ps => simp [isComposite] at h
  · intro h key hkey
    exact (serializeKey_composite_is_string k key h hkey).1

/-- Witness for the C8 amended theorem: a scalar passes through, a concrete
tuple becomes a string. -/
theorem serialize_key_scalar_passthrough_witness :
    serializeKey (.pyInt 7) = .ok (.pyInt 7) ∧
    (∃ s, (PyValue.pyStr "[1]") = PyValue.pyStr s) :=
  ⟨(serialize_key_scalar_passthrough_composite_string (.pyInt 7)).1 rfl,
   (serialize_key_scalar_passthrough_composite_string
      (.pyTuple (.cons (.pyInt 1) .nil))).2 rfl (.pyStr "[1]") rfl⟩

/-- A facade object after close: the connection handle is None. -/
def closedStore : SqliteDict PyValue PyValue :=
  ⟨"c", false, id, id, none⟩

/-- C9 counterexample: on a Store whose connection has been closed, commit is
silently accepted as a no-op (no error, nothing enqueued, state unchanged)
rather than rejected, and entering the context manager installs a fresh live
connection — close is not terminal for the facade. -/
theorem close_not_terminal :
    SqliteDict.commit closedStore true = (closedStore, .ok ()) ∧
    (SqliteDict.enter closedStore []).conn = some ⟨⟨[], [], none⟩, []⟩ := by
  exact ⟨rfl, rfl⟩

/-- C9 amended: close clears the facade's connection handle; afterwards
operations that need the connection (such as item access) raise
AttributeError, but commit and close are silent no-ops returning normally,
and entering the store as a context manager opens a fresh connection onto the
backing file. -/
theorem close_clears_handle_but_not_terminal (d : SqliteDict B V)
    (hconn : d.conn = none) (blocking : Bool) (ft : Table B)
    (k key : PyValue) (hkey : serializeKey k = .ok key) :
    SqliteDict.commit d blocking = (d, .ok ()) ∧
    SqliteDict.close d false = (d, .ok ()) ∧
    (SqliteDict.enter d ft).conn = some ⟨⟨ft, ft, none⟩, []⟩ ∧
    (SqliteDict.getitem d k).2 =
      .error (.attributeError "NoneType object has no attribute select_one") := by
  refine ⟨?_, ?_, ?_, ?_⟩
  · simp [SqliteDict.commit, hconn]
  · simp [SqliteDict.close, hconn]
  · simp [SqliteDict.enter, hconn]
  · simp [SqliteDict.getitem, hconn, hkey]

/-- Witness for the C9 amended theorem at the concrete closed store. -/
theorem close_clears_handle_but_not_terminal_witness :
    SqliteDict.commit closedStore false = (closedStore, .ok ()) ∧
    SqliteDict.close closedStore false = (closedStore, .ok ()) ∧
    (SqliteDict.enter closedStore []).conn = some ⟨⟨[], [], none⟩, []⟩ ∧
    (SqliteDict.getitem closedStore (.pyStr "x")).2 =
      .error (.attributeError "NoneType object has no attribute select_one") :=
  close_clears_handle_but_not_terminal closedStore rfl false [] (.pyStr "x")
    (.pyStr "x") rfl

/-- A freshly opened facade on an empty table, mode "c", no autocommit, with
the identity codec. -/
def sampleOpenDict : SqliteDict PyValue PyValue :=
  ⟨"c", false, id, id, some ⟨⟨[], [], none⟩, []⟩⟩

/-- Witness for C2: set then get of the key "a" returns the written value. -/
theorem set_then_get_roundtrip_witness :
    (SqliteDict.setitem sampleOpenDict (.pyStr "a") (.pyInt 5)).2 = .ok () ∧
    (SqliteDict.getitem (SqliteDict.setitem sampleOpenDict (.pyStr "a") (.pyInt 5)).1
      (.pyStr "a")).2 = .ok (.pyInt 5) :=
  set_then_get_roundtrip sampleOpenDict ⟨⟨[], [], none⟩, []⟩ (.pyStr "a") (.pyStr "a")
    (.pyInt 5) rfl rfl rfl (by decide) rfl rfl

/-- Witness for C5: get of an absent key returns the None default without
raising. -/
theorem get_absent_returns_default_witness :
    (SqliteDict.get sampleOpenDict (.pyStr "missing") none).2 = .ok none :=
  get_absent_returns_default sampleOpenDict ⟨⟨[], [], none⟩, []⟩ (.pyStr "missing")
    (.pyStr "missing") rfl rfl rfl rfl rfl

/-- A facade whose table holds the single key "a". -/
def sampleDictWithA : SqliteDict PyValue PyValue :=
  ⟨"c", false, id, id, some ⟨⟨[(.pyStr "a", .pyInt 1)], [], none⟩, []⟩⟩

/-- Witness for C6: deleting the present key "a" succeeds and a subsequent
contains is false; the absent branch raises KeyError. -/
theorem delitem_mode_then_existence_witness :
    ((SqliteDict.delitem sampleDictWithA (.pyStr "a")).2 = .ok () ∧
     (SqliteDict.hasKey (SqliteDict.delitem sampleDictWithA (.pyStr "a")).1
       (.pyStr "a")).2 = .ok false) ∧
    (SqliteDict.delitem sampleOpenDict (.pyStr "b")).2 =
      .error (.keyError (.pyStr "b")) :=
  ⟨(delitem_mode_then_existence sampleDictWithA ⟨⟨[(.pyStr "a", .pyInt 1)], [], none⟩, []⟩
      (.pyStr "a") (.pyStr "a") rfl rfl rfl rfl).2.2 (by decide) (.pyInt 1) rfl,
   ((delitem_mode_then_existence sampleOpenDict ⟨⟨[], [], none⟩, []⟩
      (.pyStr "b") (.pyStr "b") rfl rfl rfl rfl).2.1 (by decide) rfl).1⟩

/-- C10 counterexample: after update of the tuple key (1,) on a fresh store,
no row is stored at all — the raw-key REPLACE fails at parameter binding, the
failure is deferred, the table stays empty, and the subsequent get raises the
deferred sqlite binding error rather than a KeyError — so the claim's reading
that the stored row's key is the raw key (and that get fails merely by looking
up the normalized string) is false of the program. -/
theorem update_raw_key_row_never_stored :
    (SqliteDict.update sampleOpenDict [(.pyTuple (.cons (.pyInt 1) .nil), .pyInt 5)]).2 =
      .ok () ∧
    (SqliteDict.getitem
      (SqliteDict.update sampleOpenDict [(.pyTuple (.cons (.pyInt 1) .nil), .pyInt 5)]).1
      (.pyTuple (.cons (.pyInt 1) .nil))).2 = .error (.sqliteError bindErrorMsg) ∧
    (SqliteDict.getitem
      (SqliteDict.update sampleOpenDict [(.pyTuple (.cons (.pyInt 1) .nil), .pyInt 5)]).1
      (.pyTuple (.cons (.pyInt 1) .nil))).1.conn = some ⟨⟨[], [], none⟩, []⟩ :=
  ⟨rfl, rfl, rfl⟩

/-- Witness for the C10 amended theorem: the non-autocommit branch at the
concrete fresh store and tuple key. -/
theorem update_skips_key_normalization_witness :
    (SqliteDict.update sampleOpenDict [(.pyTuple (.cons (.pyInt 1) .nil), .pyInt 5)]).2 =
      .ok () ∧
    (SqliteDict.getitem
      (SqliteDict.update sampleOpenDict [(.pyTuple (.cons (.pyInt 1) .nil), .pyInt 5)]).1
      (.pyTuple (.cons (.pyInt 1) .nil))).2 = .error (.sqliteError bindErrorMsg) ∧
    (∃ m2, (SqliteDict.getitem
        (SqliteDict.update sampleOpenDict [(.pyTuple (.cons (.pyInt 1) .nil), .pyInt 5)]).1
        (.pyTuple (.cons (.pyInt 1) .nil))).1.conn = some m2 ∧
      m2.worker.table = []) :=
  (update_skips_key_normalization sampleOpenDict ⟨⟨[], [], none⟩, []⟩
    (.pyTuple (.cons (.pyInt 1) .nil)) (.pyStr "[1]") (.pyInt 5)
    rfl rfl rfl rfl (by decide) rfl rfl).1 rfl

end Sqlitedict
